import Mathlib

/-!
Verification development for the `notes_agent` workflow engine
(`notes_generater/src/notes_agent/`).  The Python sources are shallowly
embedded: pure helpers become Lean functions; the orchestrator loop, the
execution adapter's retry loop, the check runner, the diff capture and the
snapshot pipeline become explicit state-passing functions over oracles that
stand for the injected collaborators (the same seam the project's own test
fakes use).  Filesystem documents are plain association lists or
`String → Option String` maps; Python `int` is `Int`; fallible code returns
`Except`.
-/

namespace NotesAgent

/-! ## Round names (`workflow_orchestrator.RUN_ORDER`) -/

inductive RoundName
  | round0
  | round1
  | round2
  | round3
  | final
deriving DecidableEq, Repr

def RUN_ORDER : List RoundName :=
  [RoundName.round0, RoundName.round1, RoundName.round2, RoundName.round3, RoundName.final]

def RoundName.toStr : RoundName → String
  | RoundName.round0 => "round0"
  | RoundName.round1 => "round1"
  | RoundName.round2 => "round2"
  | RoundName.round3 => "round3"
  | RoundName.final => "final"

/-! ## Small string helpers mirroring the Python primitives used by the code -/

/-- Python `str.strip()` at the character-list level. -/
def stripList (l : List Char) : List Char :=
  (((l.dropWhile Char.isWhitespace).reverse).dropWhile Char.isWhitespace).reverse

/-- Python `str.strip()` (whitespace from both ends). -/
def pyStrip (s : String) : String :=
  String.mk (stripList s.data)

/-- Whether the first list is a prefix of the second. -/
def listStartsWith : List Char → List Char → Bool
  | [], _ => true
  | _ :: _, [] => false
  | a :: as, b :: bs => a = b && listStartsWith as bs

/-- Whether `pat` occurs as a contiguous run inside the list. -/
def listContains (pat : List Char) : List Char → Bool
  | [] => pat.isEmpty
  | c :: cs => listStartsWith pat (c :: cs) || listContains pat cs

/-- Python `pattern in text` (substring containment). -/
def containsSubstr (text pattern : String) : Bool :=
  listContains pattern.data text.data

/-- Python `text.startswith(pattern)`. -/
def pyStartsWith (text pattern : String) : Bool :=
  listStartsWith pattern.data text.data

/-- Split a character list on a separator character; mirrors Python
`text.split(sep)` (and `str.splitlines` for `sep = newline`, up to the
rarer line terminators). -/
def splitOnChar (sep : Char) : List Char → List (List Char)
  | [] => [[]]
  | c :: cs =>
      let rest := splitOnChar sep cs
      if c = sep then [] :: rest
      else
        match rest with
        | [] => [[c]]
        | r :: rs => (c :: r) :: rs

/-- Python `str.lower()` (ASCII model). -/
def pyLower (s : String) : String :=
  String.mk (s.data.map Char.toLower)

/-- The components of `pathlib.PurePosixPath(s).parts` for the POSIX paths the
code handles: empty and `.` components are normalized away, `..` is kept, and
an absolute path contributes a leading root component `/`. -/
def pathParts (s : String) : List String :=
  let comps := ((splitOnChar '/' s.data).map String.mk).filter (fun p => p ≠ "" ∧ p ≠ ".")
  if pyStartsWith s ("/") then ("/") :: comps else comps

/-! ## `path_utils.py` -/

/-- `path_utils.validate_path_component`. -/
def validate_path_component (value : String) (field_name : String) : Except String String :=
  let trimmed := pyStrip value
  if trimmed = "" then
    Except.error (field_name ++ " cannot be empty")
  else if containsSubstr trimmed ("\\") then
    Except.error (field_name ++ " cannot contain path separators")
  else
    match pathParts trimmed with
    | [component] =>
        if component = "." ∨ component = ".." then
          Except.error (field_name ++ " cannot be '.' or '..'")
        else
          Except.ok component
    | _ => Except.error (field_name ++ " must be a single path component")

/-- `path_utils.resolve_within_root`, returning the in-root relative
components on success.  The final `resolve().relative_to(root)` re-check of
the source succeeds exactly when the checks before it do, in this
symlink-free model of the project tree, because a relative path without `..`
components cannot leave `root`. -/
def resolve_within_root (relative_path : String) : Option (List String) :=
  if containsSubstr relative_path ("\\") then
    none
  else if pyStartsWith relative_path ("/") then
    none
  else
    let parts := pathParts relative_path
    if parts.any (fun part => part = "" ∨ part = "." ∨ part = "..") then
      none
    else
      some parts

/-! ## Pause policy (`WorkflowOrchestrator._evaluate_pause`) -/

/-- `DiffSummary` counts (the path-valued fields of the Python dataclass are
irrelevant to the pause policy and omitted from this record). -/
structure DiffSummary where
  changed_files : Int
  added_lines : Int
  removed_lines : Int
deriving DecidableEq, Repr

/-- The `changed_lines` property of `DiffSummary`. -/
def DiffSummary.changed_lines (d : DiffSummary) : Int :=
  d.added_lines + d.removed_lines

/-- `WorkflowOrchestrator._evaluate_pause`. -/
def evaluate_pause (round_name : RoundName) (diff : DiffSummary)
    (pause_after_round : Bool) (changed_lines_limit changed_files_limit : Int) :
    Option String :=
  if round_name ≠ RoundName.round0 ∧ changed_files_limit ≥ 0 ∧
      diff.changed_files > changed_files_limit then
    some ("changed_files threshold exceeded: " ++ toString diff.changed_files ++ " > " ++
      toString changed_files_limit)
  else if round_name ≠ RoundName.round0 ∧ changed_lines_limit ≥ 0 ∧
      diff.changed_lines > changed_lines_limit then
    some ("changed_lines threshold exceeded: " ++ toString diff.changed_lines ++ " > " ++
      toString changed_lines_limit)
  else if pause_after_round then
    some ("pause_after_each_round enabled")
  else
    none

/-- C10: negative limits disable both diff thresholds. -/
theorem evaluate_pause_disabled_by_negative_limits
    (round_name : RoundName) (diff : DiffSummary)
    (changed_lines_limit changed_files_limit : Int)
    (hl : changed_lines_limit < 0) (hf : changed_files_limit < 0) :
    evaluate_pause round_name diff false changed_lines_limit changed_files_limit = none := by
  unfold evaluate_pause
  rw [if_neg, if_neg, if_neg]
  · simp
  · rintro ⟨-, h, -⟩
    omega
  · rintro ⟨-, h, -⟩
    omega

/-- Witness for C10 at a concrete huge diff. -/
theorem evaluate_pause_disabled_by_negative_limits_witness :
    evaluate_pause RoundName.round2 ⟨1000000, 500000, 500000⟩ false (-1) (-1) = none :=
  evaluate_pause_disabled_by_negative_limits RoundName.round2 ⟨1000000, 500000, 500000⟩
    (-1) (-1) (by decide) (by decide)

/-! ## State-file reads (`WorkflowOrchestrator._read_json`) -/

/-- A JSON document is modeled as an association list of string fields. -/
abbrev JsonDoc := List (String × String)

/-- The observable content of a state file on disk. -/
inductive StateFile
  | absent
  | invalidJson
  | valid (doc : JsonDoc)
deriving DecidableEq, Repr

/-- `WorkflowOrchestrator._read_json`: `path.open` followed by `json.load`,
with no default parameter and no exception handling, so an absent file
raises `FileNotFoundError` and invalid JSON raises `json.JSONDecodeError`. -/
def orchestrator_read_json : StateFile → Except String JsonDoc
  | StateFile.absent => Except.error ("FileNotFoundError")
  | StateFile.invalidJson => Except.error ("json.JSONDecodeError")
  | StateFile.valid doc => Except.ok doc

/-- The state-loading prefix of `WorkflowOrchestrator.run` (lines 131-138):
`state/session.json` then `state/round_status.json` are read through
`_read_json`; an exception from either read propagates out of `run`. -/
def run_state_read_phase (session round_status : StateFile) :
    Except String (JsonDoc × JsonDoc) := do
  let session_payload ← orchestrator_read_json session
  let round_status_payload ← orchestrator_read_json round_status
  Except.ok (session_payload, round_status_payload)

/-- C1 evidence: with `state/session.json` and `state/round_status.json`
holding invalid JSON, `run` raises `json.JSONDecodeError` out of
`_read_json` instead of degrading to a caller-supplied default document,
and likewise raises `FileNotFoundError` when the files are absent. -/
theorem run_raises_on_corrupted_state_json :
    run_state_read_phase StateFile.invalidJson StateFile.invalidJson =
      Except.error ("json.JSONDecodeError") ∧
    run_state_read_phase StateFile.absent StateFile.absent =
      Except.error ("FileNotFoundError") := by
  exact ⟨rfl, rfl⟩

/-! ## Run-directory construction (`CodexExecutor.run`, lines 61-75) -/

/-- The prefix of `CodexExecutor.run` up to the creation of the run
directory: the only validation performed is the `max_retries < 0` check;
the explicit `run_id` (or the generated default when it is falsy) is then
joined directly onto `project_root / "runs"`.  The returned list is the
path components appended below the project root. -/
def codex_run_path_phase (max_retries : Int) (run_id : Option String)
    (default_run_id : String) : Except String (List String) :=
  if max_retries < 0 then
    Except.error ("max_retries must be >= 0, got " ++ toString max_retries)
  else
    let rid := match run_id with
      | some r => if r ≠ "" then r else default_run_id
      | none => default_run_id
    Except.ok [("runs"), rid]

/-- C2 evidence: `CodexExecutor.run` accepts `run_id = "../escape"` and
builds `runs/../escape` from it — a path that its own
`path_utils.resolve_within_root` rejects as escaping the root — while
`path_utils.validate_path_component`, which the executor never calls,
would have rejected the identifier with exactly the message its test
expects. -/
theorem codex_run_builds_run_dir_from_unvalidated_run_id :
    codex_run_path_phase 2 (some ("../escape")) ("run_default") =
      Except.ok [("runs"), ("../escape")] ∧
    resolve_within_root ("runs/../escape") = none ∧
    validate_path_component ("../escape") ("run_id") =
      Except.error ("run_id must be a single path component") := by
  refine ⟨rfl, by decide, rfl⟩

/-! ## Diff capture (`DiffService.capture_state`) -/

/-- An entry met by `Path.rglob("*")` under the notes root: a directory, a
regular file, or a symlink whose target is a regular file outside the
root. -/
inductive FsEntry
  | dir (rel : String)
  | file (rel : String) (content : String)
  | symlinkOutside (rel : String) (target_content : String)
deriving DecidableEq, Repr

/-- `DiffService.capture_state`: every `rglob` entry with `path.is_file()`
true is read with `read_text` and recorded under its relative path.
`pathlib.Path.is_file` follows symlinks, so a symlink to a regular file
outside the root satisfies it, and `read_text` reads the target's
content. -/
def capture_state (entries : List FsEntry) : List (String × String) :=
  entries.filterMap fun e =>
    match e with
    | FsEntry.dir _ => none
    | FsEntry.file rel content => some (rel, content)
    | FsEntry.symlinkOutside rel target_content => some (rel, target_content)

/-- The notes tree of `test_capture_state_ignores_symlink_to_outside`: one
safe regular file and one symlink pointing at a file outside the root
(entries in the sorted order `rglob` yields them). -/
def symlinkNotesTree : List FsEntry :=
  [FsEntry.dir ("notes"),
   FsEntry.dir ("notes/lectures"),
   FsEntry.symlinkOutside ("notes/lectures/outside_link.md") ("outside\n"),
   FsEntry.file ("notes/lectures/safe.md") ("safe\n")]

/-- C8 evidence: the captured state contains the outward symlink's relative
path, carrying the outside target's content, alongside the safe file. -/
theorem capture_state_includes_outward_symlink :
    (capture_state symlinkNotesTree).lookup ("notes/lectures/outside_link.md") =
      some ("outside\n") ∧
    (capture_state symlinkNotesTree).lookup ("notes/lectures/safe.md") =
      some ("safe\n") := by
  decide

/-! ## Resume-point resolution (`WorkflowOrchestrator._resolve_resume_from_round`,
`WorkflowOrchestrator.resume`) -/

/-- Python `dict.get(key, default)` over the association-list document. -/
def jsonGetD (doc : JsonDoc) (key dflt : String) : String :=
  match doc.find? (fun p => p.1 = key) with
  | some p => p.2
  | none => dflt

/-- The scan loop of `_resolve_resume_from_round` over the
`(round, status)` pairs from the scan start onward: a round in
`{pending, failed, running}` is the resume point, a `paused` round yields
the next round (or `None` when it is the last round), anything else is
skipped; exhausting the list yields `None`. -/
def resumeScanPairs : List (RoundName × String) → Option RoundName
  | [] => none
  | (r, s) :: rest =>
      if s = "pending" ∨ s = "failed" ∨ s = "running" then some r
      else if s = "paused" then
        match rest with
        | [] => none
        | (r2, _) :: _ => some r2
      else resumeScanPairs rest

/-- `WorkflowOrchestrator._resolve_resume_from_round`. -/
def resolve_resume_from_round (round_status : JsonDoc) : Option RoundName :=
  let statuses := RUN_ORDER.map (fun r => jsonGetD round_status r.toStr ("pending"))
  match statuses.findIdx? (fun s => s ≠ "pending") with
  | none => some RoundName.round0
  | some i0 => resumeScanPairs ((RUN_ORDER.zip statuses).drop i0)

/-- The fields of `state/session.json` that `resume` is expected to
normalize. -/
structure SessionDoc where
  status : String
  current_run_id : Option String
deriving DecidableEq, Repr

/-- The outcome of the no-op branch of `WorkflowOrchestrator.resume`. -/
structure ResumeNoopResult where
  workflow_status : String
  rounds_executed : List RoundName
  session_after : SessionDoc
deriving DecidableEq, Repr

/-- The no-op branch of `WorkflowOrchestrator.resume` (taken when
`_resolve_resume_from_round` returns `None`, lines 417-430): it writes a
fresh empty `succeeded` workflow result and returns; `state/session.json`
is never read or written on this path, so the session document is
unchanged. -/
def resume_noop (session : SessionDoc) : ResumeNoopResult :=
  { workflow_status := ("succeeded")
    rounds_executed := []
    session_after := session }

/-- The persisted round statuses of
`test_resume_when_all_rounds_completed_returns_noop`: every round
`completed`. -/
def allCompletedRoundStatus : JsonDoc :=
  [("round0", "completed"), ("round1", "completed"), ("round2", "completed"),
   ("round3", "completed"), ("final", "completed")]

/-- C4 evidence: with every round `completed`, resume takes the no-op
branch (`_resolve_resume_from_round` returns `None`, and no round is
executed), but a session document that was `paused` stays `paused` — the
no-op branch never normalizes the session status to `idle`. -/
theorem resume_noop_does_not_normalize_session_status :
    resolve_resume_from_round allCompletedRoundStatus = none ∧
    (resume_noop { status := ("paused"), current_run_id := some ("wf_old") }).rounds_executed
      = [] ∧
    (resume_noop { status := ("paused"), current_run_id := some ("wf_old") }).session_after.status
      = "paused" := by
  refine ⟨by decide, rfl, rfl⟩

/-! ## Execution adapter retry loop (`CodexExecutor.run`,
`CodexExecutor._is_retryable_failure`, `CodexExecutor._extract_error`) -/

/-- The fixed transient-failure markers of
`CodexExecutor._is_retryable_failure`. -/
def retryable_markers : List String :=
  [("timeout"), ("timed out"), ("network"), ("stream disconnected"),
   ("error sending request"), ("reconnecting"), ("connection reset"),
   ("connection refused"), ("temporarily unavailable"), ("stream error"),
   ("502"), ("503"), ("504")]

/-- `CodexExecutor._is_retryable_failure`. -/
def is_retryable_failure (stdio : String) : Bool :=
  let text := pyLower stdio
  retryable_markers.any (fun marker => containsSubstr text marker)

/-- `CodexExecutor._extract_error`. -/
def extract_error (text : String) : Option String :=
  let lines :=
    (((splitOnChar '\n' text.data).map (fun l => pyStrip (String.mk l))).filter
      (fun l => l ≠ ""))
  match lines with
  | [] => none
  | l0 :: _ =>
      match lines.find? (fun l => pyStartsWith (pyLower l) ("error:")) with
      | some l => some l
      | none =>
          match lines.find? (fun l => !pyStartsWith (pyLower l) ("warning:")) with
          | some l => some l
          | none => some l0

/-- One entry of the manifest's `attempts` log. -/
structure AttemptEntry where
  attempt : Nat
  exit_code : Int
  retry_reason : Option String
deriving DecidableEq, Repr

/-- The attempt loop of `CodexExecutor.run` (`for attempt in
range(1, max_retries + 2)`).  `oracle n` is the subprocess outcome of the
`n`-th attempt: its exit code and merged stdout/stderr.  `fuel` is the
number of loop iterations still available, so the top-level call uses
`attempt = 1`, `fuel = max_retries + 1`.  Returns the attempts log, the
final exit code and the final error (initial values `1` and `None` when no
iteration runs, as in the source). -/
def codex_attempt_loop (oracle : Nat → Int × String) (max_retries : Nat) :
    Nat → Nat → List AttemptEntry × Int × Option String
  | _, 0 => ([], 1, none)
  | attempt, fuel + 1 =>
      let rc := (oracle attempt).1
      let stdio := (oracle attempt).2
      if rc = 0 then
        ([{ attempt := attempt, exit_code := rc, retry_reason := none }], rc, none)
      else
        let err := some ((extract_error stdio).getD (("codex exited with ") ++ toString rc))
        if attempt ≤ max_retries ∧ is_retryable_failure stdio = true then
          let rest := codex_attempt_loop oracle max_retries (attempt + 1) fuel
          ({ attempt := attempt, exit_code := rc,
             retry_reason := some ("retryable_failure") } :: rest.1, rest.2.1, rest.2.2)
        else
          ([{ attempt := attempt, exit_code := rc, retry_reason := none }], rc, err)

/-- The fields of `CodexRunResult` (and the run manifest) that carry the
attempt outcome; the path-valued fields are omitted. -/
structure CodexRunResultModel where
  success : Bool
  attempts : Nat
  exit_code : Int
  error : Option String
  attempts_log : List AttemptEntry
deriving DecidableEq, Repr

/-- `CodexExecutor.run`: rejects a negative `max_retries`, then runs the
attempt loop and packages the result (`success` is `final_exit_code == 0`,
`attempts` is the length of the attempts log). -/
def codex_executor_run (oracle : Nat → Int × String) (max_retries : Int) :
    Except String CodexRunResultModel :=
  if max_retries < 0 then
    Except.error ("max_retries must be >= 0, got " ++ toString max_retries)
  else
    let mr := max_retries.toNat
    let out := codex_attempt_loop oracle mr 1 (mr + 1)
    Except.ok
      { success := decide (out.2.1 = 0)
        attempts := out.1.length
        exit_code := out.2.1
        error := out.2.2
        attempts_log := out.1 }

/-- Invariants of the attempt loop, proved for every reachable loop state
(`attempt + fuel = max_retries + 2`, at least one iteration available):
the log is nonempty and bounded by the remaining fuel, the final error is
`None` exactly when the final exit code is `0`, and each log entry records
its attempt number and exit code, is followed by a further attempt exactly
when it failed with retries remaining on retryable output, and carries
`retry_reason = "retryable_failure"` exactly in that case. -/
theorem codex_attempt_loop_spec (oracle : Nat → Int × String) (mr : Nat) :
    ∀ fuel attempt, 1 ≤ fuel → 1 ≤ attempt → attempt + fuel = mr + 2 →
      (1 ≤ (codex_attempt_loop oracle mr attempt fuel).1.length ∧
        (codex_attempt_loop oracle mr attempt fuel).1.length ≤ fuel) ∧
      ((codex_attempt_loop oracle mr attempt fuel).2.2 = none ↔
        (codex_attempt_loop oracle mr attempt fuel).2.1 = 0) ∧
      (∀ i e, (codex_attempt_loop oracle mr attempt fuel).1.get? i = some e →
        e.attempt = attempt + i ∧
        e.exit_code = (oracle e.attempt).1 ∧
        ((i + 1 < (codex_attempt_loop oracle mr attempt fuel).1.length) ↔
          (e.exit_code ≠ 0 ∧ e.attempt ≤ mr ∧
            is_retryable_failure ((oracle e.attempt).2) = true)) ∧
        (e.retry_reason = some ("retryable_failure") ↔
          i + 1 < (codex_attempt_loop oracle mr attempt fuel).1.length)) := by
  intro fuel
  induction fuel with
  | zero => intro attempt h1 _ _; omega
  | succ fuel ih =>
      intro attempt _ hatt hsum
      by_cases hrc : (oracle attempt).1 = 0
      · rw [codex_attempt_loop, if_pos hrc]
        refine ⟨⟨by simp, by simp⟩, by simp [hrc], ?_⟩
        intro i e hie
        cases i with
        | zero =>
            simp only [List.get?_cons_zero, Option.some.injEq] at hie
            subst hie
            refine ⟨by simp, rfl, ?_, ?_⟩
            · simp [hrc]
            · simp
        | succ i => simp at hie
      · by_cases hretry : attempt ≤ mr ∧ is_retryable_failure ((oracle attempt).2) = true
        · have hfuel : 1 ≤ fuel := by omega
          have hsum2 : (attempt + 1) + fuel = mr + 2 := by omega
          have hrec := ih (attempt + 1) hfuel (by omega) hsum2
          rw [codex_attempt_loop, if_neg hrc, if_pos hretry]
          obtain ⟨⟨hlen1, hlen2⟩, herr, hentry⟩ := hrec
          refine ⟨⟨by simp, by simpa using Nat.succ_le_succ hlen2⟩, herr, ?_⟩
          intro i e hie
          cases i with
          | zero =>
              simp only [List.get?_cons_zero, Option.some.injEq] at hie
              subst hie
              refine ⟨by simp, rfl, ?_, ?_⟩
              · simp only [List.length_cons]
                constructor
                · intro _
                  exact ⟨hrc, hretry.1, hretry.2⟩
                · intro _
                  omega
              · exact ⟨fun _ => by simp only [List.length_cons]; omega, fun _ => rfl⟩
          | succ i =>
              simp only [List.get?_cons_succ] at hie
              obtain ⟨ha, hb, hc, hd⟩ := hentry i e hie
              refine ⟨by omega, hb, ?_, ?_⟩
              · simpa [Nat.succ_lt_succ_iff] using hc
              · simpa [Nat.succ_lt_succ_iff] using hd
        · rw [codex_attempt_loop, if_neg hrc, if_neg hretry]
          refine ⟨⟨by simp, by simp⟩, by simp [hrc], ?_⟩
          intro i e hie
          cases i with
          | zero =>
              simp only [List.get?_cons_zero, Option.some.injEq] at hie
              subst hie
              refine ⟨by simp, rfl, ?_, by simp⟩
              simp only [List.length_cons, List.length_nil]
              constructor
              · intro h
                omega
              · rintro ⟨-, h1, h2⟩
                exact absurd ⟨h1, h2⟩ hretry
          | succ i => simp at hie

/-- C9: every `CodexRunResult` produced by `CodexExecutor.run` has
`success` exactly when the final exit code is `0`, an attempt count
between `1` and `max_retries + 1`, and `error = None` exactly when it
succeeded. -/
theorem codex_run_result_invariants (oracle : Nat → Int × String) (max_retries : Int)
    (r : CodexRunResultModel) (h : codex_executor_run oracle max_retries = Except.ok r) :
    (r.success = true ↔ r.exit_code = 0) ∧
    1 ≤ r.attempts ∧ (r.attempts : Int) ≤ max_retries + 1 ∧
    (r.error = none ↔ r.success = true) := by
  unfold codex_executor_run at h
  split at h
  · exact absurd h (by simp)
  · rename_i hnonneg
    have hmr : ((max_retries.toNat : Int)) = max_retries := Int.toNat_of_nonneg (by omega)
    have hspec := codex_attempt_loop_spec oracle max_retries.toNat (max_retries.toNat + 1) 1
      (by omega) (by omega) (by omega)
    obtain ⟨⟨hlen1, hlen2⟩, herr, -⟩ := hspec
    simp only [Except.ok.injEq] at h
    subst h
    refine ⟨by simp, hlen1, ?_, ?_⟩
    · have hlen3 : ((codex_attempt_loop oracle max_retries.toNat 1 (max_retries.toNat + 1)).1.length : Int)
          ≤ ((max_retries.toNat : Int)) + 1 := by exact_mod_cast hlen2
      show ((codex_attempt_loop oracle max_retries.toNat 1 (max_retries.toNat + 1)).1.length : Int)
          ≤ max_retries + 1
      omega
    · simpa using herr

/-- The oracle of `test_retry_on_retryable_failure`: the first attempt
exits `1` with output containing `network timeout`, every later attempt
exits `0`. -/
def networkTimeoutOracle : Nat → Int × String
  | 1 => (1, ("network timeout"))
  | _ => (0, ("ok after retry"))

/-- The run result `CodexExecutor.run` produces for `networkTimeoutOracle`
with `max_retries = 2`. -/
def networkTimeoutRunResult : CodexRunResultModel :=
  { success := true
    attempts := 2
    exit_code := 0
    error := none
    attempts_log :=
      [{ attempt := 1, exit_code := 1, retry_reason := some ("retryable_failure") },
       { attempt := 2, exit_code := 0, retry_reason := none }] }

/-- C5: the adapter performs at most `max_retries + 1` attempts; a further
attempt follows a log entry exactly when that attempt failed, attempts
remained, and the captured output matched a transient-failure marker (and
the entry is then tagged `retry_reason = "retryable_failure"`); and the
concrete `max_retries = 2` scenario whose first attempt prints
`network timeout` and whose second attempt exits `0` yields success in two
attempts with the first entry tagged retryable. -/
theorem codex_retry_policy_and_scenario :
    (∀ (oracle : Nat → Int × String) (max_retries : Int) (r : CodexRunResultModel),
      codex_executor_run oracle max_retries = Except.ok r →
        1 ≤ r.attempts ∧ (r.attempts : Int) ≤ max_retries + 1 ∧
        (∀ i e, r.attempts_log.get? i = some e →
          ((i + 1 < r.attempts_log.length) ↔
            (e.exit_code ≠ 0 ∧ (e.attempt : Int) ≤ max_retries ∧
              is_retryable_failure ((oracle e.attempt).2) = true)) ∧
          (e.retry_reason = some ("retryable_failure") ↔
            i + 1 < r.attempts_log.length))) ∧
    (codex_executor_run networkTimeoutOracle 2 = Except.ok networkTimeoutRunResult ∧
      networkTimeoutRunResult.success = true ∧
      networkTimeoutRunResult.attempts = 2 ∧
      networkTimeoutRunResult.attempts_log.get? 0 =
        some { attempt := 1, exit_code := 1, retry_reason := some ("retryable_failure") }) := by
  constructor
  · intro oracle max_retries r h
    unfold codex_executor_run at h
    split at h
    · exact absurd h (by simp)
    · rename_i hnonneg
      have hmr : ((max_retries.toNat : Int)) = max_retries := Int.toNat_of_nonneg (by omega)
      have hspec := codex_attempt_loop_spec oracle max_retries.toNat (max_retries.toNat + 1) 1
        (by omega) (by omega) (by omega)
      obtain ⟨⟨hlen1, hlen2⟩, -, hentry⟩ := hspec
      simp only [Except.ok.injEq] at h
      subst h
      refine ⟨hlen1, ?_, ?_⟩
      · have hlen3 : ((codex_attempt_loop oracle max_retries.toNat 1 (max_retries.toNat + 1)).1.length : Int)
            ≤ ((max_retries.toNat : Int)) + 1 := by exact_mod_cast hlen2
        show ((codex_attempt_loop oracle max_retries.toNat 1 (max_retries.toNat + 1)).1.length : Int)
            ≤ max_retries + 1
        omega
      · intro i e hie
        obtain ⟨-, -, hc, hd⟩ := hentry i e hie
        refine ⟨?_, hd⟩
        rw [hc]
        constructor
        · rintro ⟨h1, h2, h3⟩
          refine ⟨h1, ?_, h3⟩
          omega
        · rintro ⟨h1, h2, h3⟩
          refine ⟨h1, ?_, h3⟩
          omega
  · exact ⟨rfl, rfl, rfl, rfl⟩

/-- Witness for C5: the general bound applied at the concrete retry
scenario. -/
theorem codex_retry_policy_and_scenario_witness :
    1 ≤ networkTimeoutRunResult.attempts ∧
    ((networkTimeoutRunResult.attempts : Int)) ≤ 2 + 1 :=
  let h := codex_retry_policy_and_scenario.1 networkTimeoutOracle 2 networkTimeoutRunResult rfl
  ⟨h.1, h.2.1⟩

/-- Witness for C9 at the concrete retry scenario. -/
theorem codex_run_result_invariants_witness :
    (networkTimeoutRunResult.success = true ↔ networkTimeoutRunResult.exit_code = 0) ∧
    1 ≤ networkTimeoutRunResult.attempts ∧
    ((networkTimeoutRunResult.attempts : Int)) ≤ 2 + 1 ∧
    (networkTimeoutRunResult.error = none ↔ networkTimeoutRunResult.success = true) :=
  codex_run_result_invariants networkTimeoutOracle 2 networkTimeoutRunResult rfl

/-! ## Verification runner (`CheckRunner`) -/

/-- The subprocess outcome seen by `CheckRunner.run`: normal completion
with exit code and captured streams, or `subprocess.TimeoutExpired` with
the partial streams captured up to that point (`None` when nothing was
captured). -/
inductive SubprocessOutcome
  | completed (returncode : Int) (stdout stderr : String)
  | timedOut (captured_stdout captured_stderr : Option String)
deriving DecidableEq, Repr

/-- `CheckRunner._timeout_output_text` (text mode; the bytes branch decodes
to the same text). -/
def timeout_output_text : Option String → String
  | none => ""
  | some s => s

/-- The fields of `CheckRunResult` relevant to the run outcome (timestamps
and the script path are omitted).  The payload is the parsed JSON object of
stdout, when any. -/
structure CheckRunResultModel where
  passed : Bool
  exit_code : Int
  stdout : String
  stderr : String
  payload : Option JsonDoc
deriving DecidableEq, Repr

/-- The `CheckRunner.__init__` validation: a non-positive timeout is a
`ValueError`. -/
def check_runner_init (timeout_seconds : Int) : Except String Int :=
  if timeout_seconds ≤ 0 then
    Except.error ("timeout_seconds must be > 0, got " ++ toString timeout_seconds)
  else
    Except.ok timeout_seconds

/-- `CheckRunner.run` after the script-existence check, parameterized by the
pure helper `_parse_json_payload` (`json.loads` of stripped stdout when it
parses to an object, else `None`).  On timeout the runner synthesizes exit
code 124, keeps the partial stdout, appends the timeout notice to the
partial stderr (with Python `str.strip()` applied to the combination, as in
the source), parses no payload, and reports the outcome as a result value
rather than an exception. -/
def check_runner_run (timeout_seconds : Int) (parse : String → Option JsonDoc)
    (outcome : SubprocessOutcome) : CheckRunResultModel :=
  match outcome with
  | SubprocessOutcome.completed rc out err =>
      { passed := decide (rc = 0)
        exit_code := rc
        stdout := out
        stderr := err
        payload := parse out }
  | SubprocessOutcome.timedOut pout perr =>
      let exit_code : Int := 124
      let stdout := timeout_output_text pout
      let timeout_error :=
        ("check script timed out after ") ++ toString timeout_seconds ++ ("s")
      let stderr := pyStrip (timeout_output_text perr ++ ("\n") ++ timeout_error)
      { passed := decide (exit_code = 0)
        exit_code := exit_code
        stdout := stdout
        stderr := stderr
        payload := none }

/-- A block starting with a non-whitespace character survives a leading
`dropWhile` whatever precedes it. -/
theorem suffix_dropWhile_append (c : Char) (cs : List Char)
    (hc : Char.isWhitespace c = false) :
    ∀ l : List Char, (c :: cs) <:+ List.dropWhile Char.isWhitespace (l ++ c :: cs) := by
  intro l
  induction l with
  | nil =>
      simp only [List.nil_append, List.dropWhile_cons, hc]
      simp
  | cons a t iht =>
      by_cases hpa : Char.isWhitespace a = true
      · simpa [List.dropWhile_cons, hpa] using iht
      · simp only [List.cons_append, List.dropWhile_cons, hpa]
        simp only [Bool.false_eq_true, if_false]
        exact (List.suffix_append t (c :: cs)).trans (List.suffix_cons a (t ++ c :: cs))

/-- A block that starts and ends with non-whitespace characters survives
Python `strip` applied to any string that ends with it. -/
theorem suffix_stripList (l inner : List Char) (c d : Char)
    (hc : Char.isWhitespace c = false) (hd : Char.isWhitespace d = false) :
    (c :: (inner ++ [d])) <:+ stripList (l ++ c :: (inner ++ [d])) := by
  obtain ⟨u, hu⟩ := suffix_dropWhile_append c (inner ++ [d]) hc l
  unfold stripList
  rw [← hu]
  have hrev : (u ++ c :: (inner ++ [d])).reverse =
      d :: (inner.reverse ++ (c :: u.reverse)) := by
    simp
  rw [hrev]
  rw [List.dropWhile_cons]
  simp only [hd, Bool.false_eq_true, if_false]
  have hback : (d :: (inner.reverse ++ (c :: u.reverse))).reverse =
      u ++ c :: (inner ++ [d]) := by
    simp
  rw [hback]
  exact List.suffix_append u (c :: (inner ++ [d]))

/-- C6: on a timed-out verification subprocess, `CheckRunner.run` reports
exit code 124 with no payload and `passed = False`, preserves the captured
partial stdout, builds stderr from the captured partial stderr plus the
timeout notice, and that notice ends up inside stderr; no exception is
represented. -/
theorem check_runner_timeout_result (timeout_seconds : Int)
    (parse : String → Option JsonDoc) (pout perr : Option String)
    (_hinit : check_runner_init timeout_seconds = Except.ok timeout_seconds) :
    (check_runner_run timeout_seconds parse (SubprocessOutcome.timedOut pout perr)).exit_code
      = 124 ∧
    (check_runner_run timeout_seconds parse (SubprocessOutcome.timedOut pout perr)).payload
      = none ∧
    (check_runner_run timeout_seconds parse (SubprocessOutcome.timedOut pout perr)).passed
      = false ∧
    (check_runner_run timeout_seconds parse (SubprocessOutcome.timedOut pout perr)).stdout
      = timeout_output_text pout ∧
    (check_runner_run timeout_seconds parse (SubprocessOutcome.timedOut pout perr)).stderr
      = pyStrip (timeout_output_text perr ++ ("\n") ++
          (("check script timed out after ") ++ toString timeout_seconds ++ ("s"))) ∧
    ((("check script timed out after ") ++ toString timeout_seconds ++ ("s")).data <:+
      (check_runner_run timeout_seconds parse (SubprocessOutcome.timedOut pout perr)).stderr.data) := by
  refine ⟨rfl, rfl, rfl, rfl, rfl, ?_⟩
  show (("check script timed out after ") ++ toString timeout_seconds ++ ("s")).data <:+
    (pyStrip (timeout_output_text perr ++ ("\n") ++
      (("check script timed out after ") ++ toString timeout_seconds ++ ("s")))).data
  have hnotice : (("check script timed out after ") ++ toString timeout_seconds ++ ("s")).data
      = 'c' :: ((("heck script timed out after ").data ++ (toString timeout_seconds).data) ++ ['s']) := by
    simp [String.data_append]
  have hfull : (timeout_output_text perr ++ ("\n") ++
      (("check script timed out after ") ++ toString timeout_seconds ++ ("s"))).data
      = ((timeout_output_text perr).data ++ ("\n").data) ++
        'c' :: ((("heck script timed out after ").data ++ (toString timeout_seconds).data) ++ ['s']) := by
    rw [String.data_append, String.data_append, hnotice]
  show _ <:+ stripList (timeout_output_text perr ++ ("\n") ++
      (("check script timed out after ") ++ toString timeout_seconds ++ ("s"))).data
  rw [hnotice, hfull]
  exact suffix_stripList _ _ 'c' 's' (by decide) (by decide)

/-- Witness for C6 at the one-second timeout of
`test_check_runner_timeout_returns_failed_result`, with partial output
captured. -/
theorem check_runner_timeout_result_witness :
    (check_runner_run 1 (fun _ => none)
      (SubprocessOutcome.timedOut (some ("partial out")) (some ("partial err")))).exit_code = 124 ∧
    (check_runner_run 1 (fun _ => none)
      (SubprocessOutcome.timedOut (some ("partial out")) (some ("partial err")))).payload = none ∧
    (check_runner_run 1 (fun _ => none)
      (SubprocessOutcome.timedOut (some ("partial out")) (some ("partial err")))).passed = false :=
  have h := check_runner_timeout_result 1 (fun _ => none)
    (some ("partial out")) (some ("partial err")) rfl
  ⟨h.1, h.2.1, h.2.2.1⟩

/-! ## Orchestrator round loop (`WorkflowOrchestrator.run`) -/

/-- The outcome of one generation-tool invocation as the orchestrator
observes it (`CodexRunResult.success` / `.error`). -/
structure CodexOutcome where
  success : Bool
  error : Option String
deriving DecidableEq, Repr

/-- The outcome of one verification run as the orchestrator observes it:
`passed`, the exit code, and the `errors` list of the JSON payload (the
empty list stands for a missing or error-free payload, matching
`check_result.payload or {}` followed by `payload.get("errors")`). -/
structure CheckOutcome where
  passed : Bool
  exit_code : Int
  payload_errors : List String
deriving DecidableEq, Repr

/-- The injected collaborators of `WorkflowOrchestrator`, modeled the same
way the project's test fakes model them: the executor keyed by run id, the
check runner keyed by round and invocation index (`0` = first check, `1` =
post-repair re-check), and the diff summary the round's before/after
capture produces. -/
structure OrchestratorEnv where
  codexRun : String → CodexOutcome
  checkRun : RoundName → Nat → CheckOutcome
  diff : RoundName → DiffSummary

/-- The effective pause/repair configuration of one `run` invocation. -/
structure OrchestratorConfig where
  pause_after_round : Bool
  changed_lines_limit : Int
  changed_files_limit : Int
  auto_repair_check_failures : Bool
deriving DecidableEq, Repr

/-- `WorkflowOrchestrator._check_error_summary`. -/
def check_error_summary (check : CheckOutcome) : String :=
  if check.payload_errors ≠ [] then
    String.intercalate ("; ") (check.payload_errors.take 3)
  else
    ("check failed with exit_code=") ++ toString check.exit_code

/-- The fields of `RoundExecutionResult` carrying round outcome (the
path-valued fields are omitted from the state model). -/
structure RoundExecutionResult where
  round_name : RoundName
  status : String
  codex_run_id : Option String
  codex_success : Option Bool
  check_passed : Option Bool
  repaired : Bool
  changed_files : Int
  changed_lines : Int
  pause_reason : Option String
  error : Option String
deriving DecidableEq, Repr

/-- The failed-round result taken when the last generation attempt failed
(source lines 290-311). -/
def mkFailedCodex (r : RoundName) (run_id : String) (repaired : Bool)
    (err : Option String) (diff : DiffSummary) : RoundExecutionResult :=
  { round_name := r
    status := ("failed")
    codex_run_id := some run_id
    codex_success := some false
    check_passed := none
    repaired := repaired
    changed_files := diff.changed_files
    changed_lines := diff.changed_lines
    pause_reason := none
    error := err }

/-- The failed-round result taken when generation succeeded but the check
result is missing or failed (source lines 313-338). -/
def mkFailedCheck (r : RoundName) (run_id : String) (repaired : Bool)
    (check : Option CheckOutcome) (diff : DiffSummary) : RoundExecutionResult :=
  { round_name := r
    status := ("failed")
    codex_run_id := some run_id
    codex_success := some true
    check_passed := some false
    repaired := repaired
    changed_files := diff.changed_files
    changed_lines := diff.changed_lines
    pause_reason := none
    error := some ((check.map check_error_summary).getD ("check result missing")) }

/-- The passing-round result (source lines 340-369): `paused` exactly when
the pause policy returned a reason (every generated reason is a nonempty
string, so Python truthiness is `Option.isSome`). -/
def mkPassed (r : RoundName) (run_id : Option String) (repaired : Bool)
    (diff : DiffSummary) (pause : Option String) : RoundExecutionResult :=
  { round_name := r
    status := if pause.isSome then ("paused") else ("completed")
    codex_run_id := run_id
    codex_success := if run_id.isSome then some true else none
    check_passed := some true
    repaired := repaired
    changed_files := diff.changed_files
    changed_lines := diff.changed_lines
    pause_reason := pause
    error := none }

/-- The `round0` arm of the loop body (source lines 147-223): scaffold
initialization (pure side effect on the notes tree, not represented in the
round result), then a direct check; failure aborts, success goes to pause
evaluation. -/
def exec_round0 (env : OrchestratorEnv) (cfg : OrchestratorConfig) : RoundExecutionResult :=
  let check := env.checkRun RoundName.round0 0
  let diff := env.diff RoundName.round0
  if check.passed = false then
    { round_name := RoundName.round0
      status := ("failed")
      codex_run_id := none
      codex_success := none
      check_passed := some false
      repaired := false
      changed_files := diff.changed_files
      changed_lines := diff.changed_lines
      pause_reason := none
      error := some (check_error_summary check) }
  else
    mkPassed RoundName.round0 none false diff
      (evaluate_pause RoundName.round0 diff cfg.pause_after_round
        cfg.changed_lines_limit cfg.changed_files_limit)

/-- The generation arm of the loop body (source lines 225-372): primary
generation run, first check, at most one repair run with re-check, then the
three-way classification (generation failed / check missing-or-failed /
check passed with pause evaluation). -/
def exec_generation_round (env : OrchestratorEnv) (cfg : OrchestratorConfig)
    (workflow_id : String) (r : RoundName) : RoundExecutionResult :=
  let codex_run_id := workflow_id ++ ("_") ++ r.toStr
  let primary := env.codexRun codex_run_id
  let diff := env.diff r
  if primary.success = false then
    mkFailedCodex r codex_run_id false primary.error diff
  else
    let check0 := env.checkRun r 0
    if check0.passed = false ∧ cfg.auto_repair_check_failures = true then
      let repair_run_id := workflow_id ++ ("_") ++ r.toStr ++ ("_repair1")
      let repair := env.codexRun repair_run_id
      if repair.success = false then
        mkFailedCodex r repair_run_id true repair.error diff
      else
        let check1 := env.checkRun r 1
        if check1.passed = false then
          mkFailedCheck r repair_run_id true (some check1) diff
        else
          mkPassed r (some repair_run_id) true diff
            (evaluate_pause r diff cfg.pause_after_round
              cfg.changed_lines_limit cfg.changed_files_limit)
    else
      if check0.passed = false then
        mkFailedCheck r codex_run_id false (some check0) diff
      else
        mkPassed r (some codex_run_id) false diff
          (evaluate_pause r diff cfg.pause_after_round
            cfg.changed_lines_limit cfg.changed_files_limit)

/-- One iteration of the round loop: `round0` goes through the scaffold
arm, every other round through the generation arm. -/
def exec_round (env : OrchestratorEnv) (cfg : OrchestratorConfig)
    (workflow_id : String) (r : RoundName) : RoundExecutionResult :=
  if r = RoundName.round0 then exec_round0 env cfg
  else exec_generation_round env cfg workflow_id r

/-- The round loop of `WorkflowOrchestrator.run` over the selected range,
threading the persisted per-round status map (the transient `running`
marks written before each round are immediately overwritten on this
no-crash path and are not represented).  Returns the round results, the
workflow status (`succeeded` unless a round failed or paused first), and
the final status map; a `failed` round ends the loop with
`failed_recoverable`, a `paused` round ends it with `paused`. -/
def run_rounds (env : OrchestratorEnv) (cfg : OrchestratorConfig) (workflow_id : String) :
    List RoundName → (RoundName → String) →
    (List RoundExecutionResult × String × (RoundName → String))
  | [], rs => ([], ("succeeded"), rs)
  | r :: rest, rs =>
      let res := exec_round env cfg workflow_id r
      let rs1 := fun x => if x = r then res.status else rs x
      if res.status = "failed" then ([res], ("failed_recoverable"), rs1)
      else if res.status = "paused" then ([res], ("paused"), rs1)
      else
        let tail := run_rounds env cfg workflow_id rest rs1
        (res :: tail.1, tail.2.1, tail.2.2)

/-- `WorkflowOrchestrator._select_rounds`: the contiguous slice
`RUN_ORDER[start : end + 1]`, a `ValueError` when the range is inverted. -/
def select_rounds (from_round to_round : RoundName) : Except String (List RoundName) :=
  let start := RUN_ORDER.indexOf from_round
  let stop := RUN_ORDER.indexOf to_round
  if start > stop then
    Except.error ("from_round must be <= to_round")
  else
    Except.ok ((RUN_ORDER.drop start).take (stop + 1 - start))

/-- The final session status written by `run` (source lines 375-383). -/
def session_status_for (workflow_status : String) : String :=
  if workflow_status = "succeeded" then ("idle")
  else if workflow_status = "paused" then ("paused")
  else ("failed_recoverable")

/-- What one `run` invocation produces and persists, given parsed state
documents (the state-file read layer is modeled separately by
`run_state_read_phase`). -/
structure WorkflowRunModel where
  status : String
  rounds : List RoundExecutionResult
  round_status : RoundName → String
  session_status : String

/-- `WorkflowOrchestrator.run` after its state reads: select the round
range, drive the loop, and derive the final session status. -/
def orchestrator_run (env : OrchestratorEnv) (cfg : OrchestratorConfig)
    (workflow_id : String) (from_round to_round : RoundName)
    (rs0 : RoundName → String) : Except String WorkflowRunModel :=
  match select_rounds from_round to_round with
  | Except.error e => Except.error e
  | Except.ok rounds =>
      let out := run_rounds env cfg workflow_id rounds rs0
      Except.ok
        { status := out.2.1
          rounds := out.1
          round_status := out.2.2
          session_status := session_status_for out.2.1 }

/-- The pause policy fires whenever a non-`round0` round's changed-lines
count exceeds an enabled (non-negative) limit, whatever the other
thresholds say. -/
theorem evaluate_pause_isSome_of_lines (r : RoundName) (diff : DiffSummary)
    (pause_after_round : Bool) (changed_lines_limit changed_files_limit : Int)
    (h1 : r ≠ RoundName.round0) (h2 : changed_lines_limit ≥ 0)
    (h3 : diff.changed_lines > changed_lines_limit) :
    (evaluate_pause r diff pause_after_round changed_lines_limit changed_files_limit).isSome
      = true := by
  unfold evaluate_pause
  split
  · simp
  · split
    · simp
    · rename_i hcond
      exact absurd ⟨h1, h2, h3⟩ hcond

/-- Every round result is labeled with its own round name. -/
theorem exec_round_round_name (env : OrchestratorEnv) (cfg : OrchestratorConfig)
    (workflow_id : String) (r : RoundName) :
    (exec_round env cfg workflow_id r).round_name = r := by
  unfold exec_round exec_round0 exec_generation_round mkFailedCodex mkFailedCheck mkPassed
  dsimp only
  split_ifs <;> simp_all

/-- A round result records the diff counts captured for that round. -/
theorem exec_round_changed_lines (env : OrchestratorEnv) (cfg : OrchestratorConfig)
    (workflow_id : String) (r : RoundName) :
    (exec_round env cfg workflow_id r).changed_lines = (env.diff r).changed_lines := by
  unfold exec_round exec_round0 exec_generation_round mkFailedCodex mkFailedCheck mkPassed
  dsimp only
  split_ifs <;> simp_all

/-- A non-`round0` round whose result records a passing check, with the
changed-lines threshold enabled and exceeded, comes out `paused`. -/
theorem exec_round_paused_of_lines (env : OrchestratorEnv) (cfg : OrchestratorConfig)
    (workflow_id : String) (r : RoundName)
    (hne : r ≠ RoundName.round0)
    (hcheck : (exec_round env cfg workflow_id r).check_passed = some true)
    (hN : cfg.changed_lines_limit ≥ 0)
    (hgt : (exec_round env cfg workflow_id r).changed_lines > cfg.changed_lines_limit) :
    (exec_round env cfg workflow_id r).status = "paused" := by
  have hdiff := exec_round_changed_lines env cfg workflow_id r
  rw [hdiff] at hgt
  have hpause := evaluate_pause_isSome_of_lines r (env.diff r) cfg.pause_after_round
    cfg.changed_lines_limit cfg.changed_files_limit hne hN hgt
  unfold exec_round at hcheck ⊢
  rw [if_neg hne] at hcheck ⊢
  unfold exec_generation_round mkFailedCodex mkFailedCheck mkPassed at hcheck ⊢
  dsimp only at hcheck ⊢
  split_ifs at hcheck ⊢ <;> simp_all

/-- In the round loop, a `paused` member of the result list is the last
result; the loop stops there with workflow status `paused` and persists
`paused` for that round. -/
theorem run_rounds_paused (env : OrchestratorEnv) (cfg : OrchestratorConfig)
    (workflow_id : String) :
    ∀ (rounds : List RoundName) (rs : RoundName → String) (res : RoundExecutionResult),
      res ∈ (run_rounds env cfg workflow_id rounds rs).1 →
      res.status = "paused" →
      (run_rounds env cfg workflow_id rounds rs).2.1 = "paused" ∧
      (run_rounds env cfg workflow_id rounds rs).2.2 res.round_name = "paused" ∧
      (run_rounds env cfg workflow_id rounds rs).1.getLast? = some res := by
  intro rounds
  induction rounds with
  | nil =>
      intro rs res hmem _
      simp [run_rounds] at hmem
  | cons r rest ih =>
      intro rs res hmem hpaused
      by_cases hfail : (exec_round env cfg workflow_id r).status = "failed"
      · rw [run_rounds, if_pos hfail] at hmem ⊢
        simp only [List.mem_singleton] at hmem
        subst hmem
        rw [hpaused] at hfail
        simp at hfail
      · by_cases hp : (exec_round env cfg workflow_id r).status = "paused"
        · rw [run_rounds, if_neg hfail, if_pos hp] at hmem ⊢
          simp only [List.mem_singleton] at hmem
          subst hmem
          refine ⟨rfl, ?_, rfl⟩
          rw [exec_round_round_name]
          simp [hp]
        · rw [run_rounds, if_neg hfail, if_neg hp] at hmem ⊢
          simp only [List.mem_cons] at hmem
          rcases hmem with hmem | hmem
          · subst hmem
            exact absurd hpaused hp
          · have hih := ih (fun x => if x = r then (exec_round env cfg workflow_id r).status else rs x)
              res hmem hpaused
            refine ⟨hih.1, hih.2.1, ?_⟩
            have hne2 : (run_rounds env cfg workflow_id rest
                (fun x => if x = r then (exec_round env cfg workflow_id r).status else rs x)).1
                ≠ [] := List.ne_nil_of_mem hmem
            obtain ⟨hd, tl, heq⟩ := List.exists_cons_of_ne_nil hne2
            show (exec_round env cfg workflow_id r ::
              (run_rounds env cfg workflow_id rest
                (fun x => if x = r then (exec_round env cfg workflow_id r).status else rs x)).1).getLast?
              = some res
            rw [heq, List.getLast?_cons_cons, ← heq]
            exact hih.2.2

/-- Every result the round loop emits is the execution of one of the
requested rounds. -/
theorem run_rounds_mem_exec (env : OrchestratorEnv) (cfg : OrchestratorConfig)
    (workflow_id : String) :
    ∀ (rounds : List RoundName) (rs : RoundName → String) (res : RoundExecutionResult),
      res ∈ (run_rounds env cfg workflow_id rounds rs).1 →
      ∃ r, r ∈ rounds ∧ res = exec_round env cfg workflow_id r := by
  intro rounds
  induction rounds with
  | nil =>
      intro rs res hmem
      simp [run_rounds] at hmem
  | cons r rest ih =>
      intro rs res hmem
      by_cases hfail : (exec_round env cfg workflow_id r).status = "failed"
      · rw [run_rounds, if_pos hfail] at hmem
        simp only [List.mem_singleton] at hmem
        exact ⟨r, List.mem_cons_self r rest, hmem⟩
      · by_cases hp : (exec_round env cfg workflow_id r).status = "paused"
        · rw [run_rounds, if_neg hfail, if_pos hp] at hmem
          simp only [List.mem_singleton] at hmem
          exact ⟨r, List.mem_cons_self r rest, hmem⟩
        · rw [run_rounds, if_neg hfail, if_neg hp] at hmem
          simp only [List.mem_cons] at hmem
          rcases hmem with hmem | hmem
          · exact ⟨r, List.mem_cons_self r rest, hmem⟩
          · obtain ⟨r2, hr2, hres⟩ := ih
              (fun x => if x = r then (exec_round env cfg workflow_id r).status else rs x)
              res hmem
            exact ⟨r2, List.mem_cons_of_mem r hr2, hres⟩

/-- C3: in any run, a round other than `round0` whose verification passed
and whose diff exceeds an enabled changed-lines limit is reported
`paused`, persisted as `paused`, makes the workflow status `paused`, and
is the last round executed in the invocation. -/
theorem round_paused_on_changed_lines_threshold
    (env : OrchestratorEnv) (cfg : OrchestratorConfig) (workflow_id : String)
    (from_round to_round : RoundName) (rs0 : RoundName → String)
    (w : WorkflowRunModel) (res : RoundExecutionResult)
    (hrun : orchestrator_run env cfg workflow_id from_round to_round rs0 = Except.ok w)
    (hmem : res ∈ w.rounds)
    (hne : res.round_name ≠ RoundName.round0)
    (hcheck : res.check_passed = some true)
    (hN : cfg.changed_lines_limit ≥ 0)
    (hgt : res.changed_lines > cfg.changed_lines_limit) :
    res.status = "paused" ∧ w.status = "paused" ∧
    w.round_status res.round_name = "paused" ∧
    w.rounds.getLast? = some res := by
  unfold orchestrator_run at hrun
  split at hrun
  · exact absurd hrun (by simp)
  · rename_i rounds hsel
    simp only [Except.ok.injEq] at hrun
    subst hrun
    obtain ⟨r, hr, hres⟩ := run_rounds_mem_exec env cfg workflow_id rounds rs0 res hmem
    have hrname : res.round_name = r := by
      rw [hres]
      exact exec_round_round_name env cfg workflow_id r
    have hrne : r ≠ RoundName.round0 := by
      rw [← hrname]
      exact hne
    have hstatus : res.status = "paused" := by
      rw [hres]
      exact exec_round_paused_of_lines env cfg workflow_id r hrne
        (by rw [← hres]; exact hcheck) hN (by rw [← hres]; exact hgt)
    have hloop := run_rounds_paused env cfg workflow_id rounds rs0 res hmem hstatus
    exact ⟨hstatus, hloop.1, hloop.2.1, hloop.2.2⟩

/-- The collaborators of the concrete pause scenario
(`test_pause_when_changed_lines_exceed_threshold`): generation always
succeeds, checks always pass, and each round changes one file by one
added line. -/
def pauseScenarioEnv : OrchestratorEnv :=
  { codexRun := fun _ => { success := true, error := none }
    checkRun := fun _ _ => { passed := true, exit_code := 0, payload_errors := [] }
    diff := fun _ => { changed_files := 1, added_lines := 1, removed_lines := 0 } }

/-- The configuration of the concrete pause scenario: a changed-lines
limit of `0`. -/
def pauseScenarioCfg : OrchestratorConfig :=
  { pause_after_round := false
    changed_lines_limit := 0
    changed_files_limit := 20
    auto_repair_check_failures := true }

/-- The round result the pause scenario produces for `round1`. -/
def pauseScenarioResult : RoundExecutionResult :=
  { round_name := RoundName.round1
    status := ("paused")
    codex_run_id := some ("wf_pause_threshold_round1")
    codex_success := some true
    check_passed := some true
    repaired := false
    changed_files := 1
    changed_lines := 1
    pause_reason := some ("changed_lines threshold exceeded: 1 > 0")
    error := none }

/-- The workflow outcome the pause scenario produces. -/
def pauseScenarioRun : WorkflowRunModel :=
  { status := ("paused")
    rounds := [pauseScenarioResult]
    round_status := fun x => if x = RoundName.round1 then ("paused") else ("pending")
    session_status := ("paused") }

/-- Witness for C3 at the concrete pause scenario. -/
theorem round_paused_on_changed_lines_threshold_witness :
    pauseScenarioResult.status = "paused" ∧ pauseScenarioRun.status = "paused" ∧
    pauseScenarioRun.round_status pauseScenarioResult.round_name = "paused" ∧
    pauseScenarioRun.rounds.getLast? = some pauseScenarioResult :=
  round_paused_on_changed_lines_threshold pauseScenarioEnv pauseScenarioCfg
    ("wf_pause_threshold") RoundName.round1 RoundName.round1 (fun _ => ("pending"))
    pauseScenarioRun pauseScenarioResult rfl (by simp [pauseScenarioRun])
    (by decide) rfl (by decide) (by decide)

/-! ## Snapshot subsystem (`SnapshotService`) -/

/-- Python `str.strip("-")` at the character-list level. -/
def stripDashes (l : List Char) : List Char :=
  (((l.dropWhile (fun c => c = '-')).reverse).dropWhile (fun c => c = '-')).reverse

/-- `snapshot_service._safe_name`. -/
def safe_name (name : String) : String :=
  let filtered := String.mk (((pyStrip name).data.map
    (fun ch => if ch.isAlphanum ∨ ch = '-' ∨ ch = '_' ∨ ch = '.' then ch else '-')))
  let stripped := String.mk (stripDashes filtered.data)
  if stripped = "" then ("source") else stripped

/-- A snapshot source as `create_snapshot` sees it: its filename, its
content, and whether the path is a symlink. -/
structure SourceFile where
  name : String
  content : String
  symlink : Bool
deriving DecidableEq, Repr

/-- What `create_snapshot` produces: the validated snapshot id, the
`files` mapping of the hash manifest (project-root-relative path →
digest), the project filesystem after the copy, and the copied file
count. -/
structure SnapshotCreateModel where
  snapshot_id : String
  files : List (String × String)
  fs : String → Option String
  file_count : Nat

/-- `SnapshotService.create_snapshot` for a single regular-file source
(the directory-source branch, which copies a whole tree, is not exercised
by the claims).  The filesystem is a map from project-root-relative path
to content; the digest function stands for `_file_sha256`.  The source
must exist (its content is given) and must not be a symlink; the copied
file lands under `artifacts/snapshots/<id>/001_<safe-name>` and its digest
is recorded in the manifest.  The read-only `chmod` pass changes no
content and the fresh-directory check holds for a fresh id; neither is
represented in the state. -/
def create_snapshot_single (hash : String → String) (fs0 : String → Option String)
    (snapshot_id : Option String) (default_id : String) (src : SourceFile) :
    Except String SnapshotCreateModel :=
  if src.symlink = true then
    Except.error ("source symlink is not allowed")
  else
    match (match snapshot_id with
           | some sid => validate_path_component sid ("snapshot_id")
           | none => Except.ok default_id) with
    | Except.error e => Except.error e
    | Except.ok snapshot_key =>
        let dest_rel := ("artifacts/snapshots/") ++ snapshot_key ++ ("/001_") ++
          safe_name src.name
        Except.ok
          { snapshot_id := snapshot_key
            files := [(dest_rel, hash src.content)]
            fs := fun p => if p = dest_rel then some src.content else fs0 p
            file_count := 1 }

/-- One entry of `SnapshotVerificationResult.mismatches`. -/
structure SnapshotMismatch where
  path : String
  reason : String
  expected : String
  actual : String
deriving DecidableEq, Repr

/-- `SnapshotVerificationResult`. -/
structure SnapshotVerificationResult where
  snapshot_id : String
  valid : Bool
  checked_files : Nat
  mismatches : List SnapshotMismatch
deriving DecidableEq, Repr

/-- The observable state of `artifacts/source_hashes.json` when
verification reads it: absent, unreadable-or-malformed (no dictionary
`files`), or a snapshot id with its `files` mapping. -/
inductive ManifestFile
  | missing
  | invalid
  | valid (snapshot_id : String) (files : List (String × String))
deriving DecidableEq, Repr

/-- `SnapshotService.verify_snapshot_hashes`: a missing manifest is
`missing_metadata`, an unusable one `invalid_metadata`; otherwise each
recorded path is resolved strictly inside the project root
(`invalid_path` when that fails, the file never read), looked up
(`missing` when absent), and re-digested (`hash_mismatch` on a changed
digest).  `valid` holds exactly when no mismatch was found; every
recorded entry counts toward `checked_files`. -/
def verify_snapshot_hashes (hash : String → String) (fs : String → Option String) :
    ManifestFile → SnapshotVerificationResult
  | ManifestFile.missing =>
      { snapshot_id := ("unknown")
        valid := false
        checked_files := 0
        mismatches := [{ path := ("artifacts/source_hashes.json"),
                         reason := ("missing_metadata"), expected := "", actual := "" }] }
  | ManifestFile.invalid =>
      { snapshot_id := ("unknown")
        valid := false
        checked_files := 0
        mismatches := [{ path := ("artifacts/source_hashes.json"),
                         reason := ("invalid_metadata"), expected := "", actual := "" }] }
  | ManifestFile.valid sid files =>
      let mismatches := files.filterMap (fun entry =>
        let relative_path := entry.1
        let expected_hash := entry.2
        match resolve_within_root relative_path with
        | none =>
            some { path := relative_path, reason := ("invalid_path"),
                   expected := expected_hash, actual := "" }
        | some parts =>
            let resolved := String.intercalate ("/") parts
            match fs resolved with
            | none =>
                some { path := resolved, reason := ("missing"),
                       expected := expected_hash, actual := "" }
            | some content =>
                if hash content ≠ expected_hash then
                  some { path := resolved, reason := ("hash_mismatch"),
                         expected := expected_hash, actual := hash content }
                else none)
      { snapshot_id := sid
        valid := decide (mismatches.length = 0)
        checked_files := files.length
        mismatches := mismatches }

/-- C7: snapshotting one regular file and verifying immediately reports
`valid` with one checked file; mutating the copied file's content to
anything with a different digest and re-verifying reports exactly one
mismatch, with reason `hash_mismatch`. -/
theorem snapshot_round_trip_detects_mutation
    (hash : String → String) (fs0 : String → Option String) (c c2 : String)
    (hneq : hash c2 ≠ hash c) :
    ∃ m : SnapshotCreateModel,
      create_snapshot_single hash fs0 (some ("snap1")) ("20260101T000000Z")
        { name := ("notes.md"), content := c, symlink := false } = Except.ok m ∧
      m.file_count = 1 ∧
      (verify_snapshot_hashes hash m.fs
        (ManifestFile.valid m.snapshot_id m.files)).valid = true ∧
      (verify_snapshot_hashes hash m.fs
        (ManifestFile.valid m.snapshot_id m.files)).checked_files = 1 ∧
      (verify_snapshot_hashes hash
        (fun p => if p = ("artifacts/snapshots/snap1/001_notes.md") then some c2 else m.fs p)
        (ManifestFile.valid m.snapshot_id m.files)).valid = false ∧
      (verify_snapshot_hashes hash
        (fun p => if p = ("artifacts/snapshots/snap1/001_notes.md") then some c2 else m.fs p)
        (ManifestFile.valid m.snapshot_id m.files)).mismatches =
        [{ path := ("artifacts/snapshots/snap1/001_notes.md"), reason := ("hash_mismatch"),
           expected := hash c, actual := hash c2 }] := by
  have hres : resolve_within_root ("artifacts/snapshots/snap1/001_notes.md") =
      some [("artifacts"), ("snapshots"), ("snap1"), ("001_notes.md")] := rfl
  have hjoin : String.intercalate ("/")
      [("artifacts"), ("snapshots"), ("snap1"), ("001_notes.md")] =
      ("artifacts/snapshots/snap1/001_notes.md") := rfl
  refine ⟨{ snapshot_id := ("snap1")
            files := [(("artifacts/snapshots/snap1/001_notes.md"), hash c)]
            fs := fun p =>
              if p = ("artifacts/snapshots/snap1/001_notes.md") then some c else fs0 p
            file_count := 1 }, rfl, rfl, ?_, rfl, ?_, ?_⟩
  · simp [verify_snapshot_hashes, hres, hjoin]
  · simp [verify_snapshot_hashes, hres, hjoin, hneq]
  · simp [verify_snapshot_hashes, hres, hjoin, hneq]

/-- Witness for C7 with the identity digest on distinct contents. -/
theorem snapshot_round_trip_detects_mutation_witness :
    ∃ m : SnapshotCreateModel,
      create_snapshot_single (fun s => s) (fun _ => none) (some ("snap1"))
        ("20260101T000000Z")
        { name := ("notes.md"), content := ("line1"), symlink := false } = Except.ok m ∧
      m.file_count = 1 ∧
      (verify_snapshot_hashes (fun s => s) m.fs
        (ManifestFile.valid m.snapshot_id m.files)).valid = true ∧
      (verify_snapshot_hashes (fun s => s) m.fs
        (ManifestFile.valid m.snapshot_id m.files)).checked_files = 1 ∧
      (verify_snapshot_hashes (fun s => s)
        (fun p => if p = ("artifacts/snapshots/snap1/001_notes.md") then some ("line1x") else m.fs p)
        (ManifestFile.valid m.snapshot_id m.files)).valid = false ∧
      (verify_snapshot_hashes (fun s => s)
        (fun p => if p = ("artifacts/snapshots/snap1/001_notes.md") then some ("line1x") else m.fs p)
        (ManifestFile.valid m.snapshot_id m.files)).mismatches =
        [{ path := ("artifacts/snapshots/snap1/001_notes.md"), reason := ("hash_mismatch"),
           expected := ("line1"), actual := ("line1x") }] :=
  snapshot_round_trip_detects_mutation (fun s => s) (fun _ => none)
    ("line1") ("line1x") (by decide)

end NotesAgent
